import Mathlib

/-!
Shallow embedding of the HN digest pipeline (backend/), covering the data
model and operations of ingest.py, analyze.py, score.py, matcher.py,
digest.py and mail.py. Python floats are modelled as rationals; SQLite
tables are modelled as lists of row structures, with each SQL statement
translated to the corresponding pure list transformation. JSON score
blobs are modelled as association lists from key to value, and JSON
string lists by their serialized text (as compared against by digest.py).
-/

/-- Python json.dumps of a list of strings, as produced by matcher.py for
the matched_categories column: json.dumps([]) is the two-character text
consisting of the open and close square brackets. -/
def jsonDumpsList (xs : List String) : String :=
  "[" ++ String.intercalate ", " (xs.map (fun s => "\"" ++ s ++ "\"")) ++ "]"

/-- Row of the contents table (ingest.py inserts link_id, article, comments;
scrape.py later fills article). -/
structure ContentRow where
  id : Nat
  link_id : Nat
  article : Option String
  comments : Option String
deriving DecidableEq, Repr

/-- Row of the analysis table. The scores JSON blob is modelled as the
association list that score.py serializes with json.dumps. -/
structure AnalysisRow where
  id : Nat
  content_id : Nat
  article_summary : Option String
  comments_summary : Option String
  categories : Option String
  scores : Option (List (String × ℚ))
deriving DecidableEq, Repr

/-- Row of the user_articles table. is_read and is_sent are 0/1 integer
flags, modelled as Bool; both default to 0 on insert. -/
structure UserArticle where
  id : Nat
  user_id : Nat
  article_id : Nat
  matched_categories : Option String
  relevance_score : Option ℚ
  created_at : Nat
  is_read : Bool
  is_sent : Bool
deriving DecidableEq, Repr

namespace Score

/-- Structured output of the ArticleScores LLM query in score.py. -/
structure ArticleScores where
  controversial : ℚ
  trustworthy : ℚ
  sentiment : ℚ
deriving DecidableEq, Repr

/-- The scores_dict built at the top of save_scores: the three article
scores, plus a confidence entry only when confidence is not None. -/
def scoresDict (scores : ArticleScores) (confidence : Option ℚ) :
    List (String × ℚ) :=
  [("controversial", scores.controversial),
   ("trustworthy", scores.trustworthy),
   ("sentiment", scores.sentiment)] ++
    (match confidence with
     | some c => [("confidence", c)]
     | none => [])

/-- score.py save_scores: serialize the scores dict, then UPDATE the
analysis row for content_id if one exists, else INSERT a new row carrying
only content_id and scores. freshId models the autoincrement id of the
inserted row. No clamping is performed anywhere in this function. -/
def save_scores (analysis : List AnalysisRow) (content_id : Nat)
    (scores : ArticleScores) (confidence : Option ℚ) (freshId : Nat) :
    List AnalysisRow :=
  let blob := scoresDict scores confidence
  if analysis.any (fun r => r.content_id == content_id) then
    analysis.map (fun r =>
      if r.content_id == content_id then
        { r with scores := some blob }
      else r)
  else
    analysis ++ [{ id := freshId, content_id := content_id,
                   article_summary := none, comments_summary := none,
                   categories := none, scores := some blob }]

/-- score.py truncate_text: empty text stays empty; text within the limit
is returned unchanged; longer text is cut at max_chars characters with a
truncation marker appended. -/
def truncate_text (text : String) (max_chars : Nat) : String :=
  if text = "" then ""
  else if text.length ≤ max_chars then text
  else String.mk (text.toList.take max_chars) ++ "\n... [truncated]"

/-- score.py compute_confidence: the LLM call is abstracted as its outcome
(ok with the returned confidence value, or error for a raised exception).
The function returns None when the truncated article is empty or the
article_summary from the left join is absent or empty, and otherwise
passes the LLM result through unclamped (None if the call raised). -/
def compute_confidence (llmOutcome : Except Unit ℚ) (article : String)
    (article_summary : Option String) : Option ℚ :=
  let a := truncate_text article 15000
  if a = "" ∨ article_summary = none ∨ article_summary = some "" then none
  else
    match llmOutcome with
    | Except.ok c => some c
    | Except.error _ => none

end Score

namespace Matcher

/-- matcher.py calculate_relevance: abstracting the RelevanceScore LLM call
as its outcome, the function returns None when either text is empty or the
call raised, and otherwise clamps the returned relevance to the 0-5 range
with max(0.0, min(5.0, result.relevance)). -/
def calculate_relevance (llmOutcome : Except Unit ℚ)
    (user_description article_summary : String) : Option ℚ :=
  if user_description = "" ∨ article_summary = "" then none
  else
    match llmOutcome with
    | Except.ok r => some (max 0 (min 5 r))
    | Except.error _ => none

/-- matcher.py insert_user_article: INSERT INTO user_articles with
ON CONFLICT(user_id, article_id) DO UPDATE setting only matched_categories
and relevance_score to the excluded values. On a fresh insert, created_at
is the current time and is_read and is_sent take their 0 defaults; on
conflict, all other columns of the existing row are untouched. -/
def insert_user_article (tbl : List UserArticle) (user_id article_id : Nat)
    (matched_categories : List String) (relevance_score : Option ℚ)
    (created_at freshId : Nat) : List UserArticle :=
  let matched_json := jsonDumpsList matched_categories
  if tbl.any (fun r => r.user_id == user_id && r.article_id == article_id) then
    tbl.map (fun r =>
      if r.user_id == user_id && r.article_id == article_id then
        { r with matched_categories := some matched_json,
                 relevance_score := relevance_score }
      else r)
  else
    tbl ++ [{ id := freshId, user_id := user_id, article_id := article_id,
              matched_categories := some matched_json,
              relevance_score := relevance_score,
              created_at := created_at, is_read := false, is_sent := false }]

/-- User row as loaded by get_users_with_categories (only users whose
categories column is set and non-empty are returned by that query). -/
structure MUser where
  id : Nat
  categories : List String
  custom_description : String
deriving DecidableEq, Repr

/-- Article row as loaded by get_articles_with_categories. -/
structure MArticle where
  link_id : Nat
  analysis_id : Nat
  categories : List String
  article_summary : String
deriving DecidableEq, Repr

/-- Python set intersection list(set(xs) & set(ys)) from matcher.py main,
modelled with a fixed deterministic element order (first list order, after
set deduplication). Only membership is relied upon by the theorems. -/
def set_inter (xs ys : List String) : List String :=
  xs.dedup.filter (fun c => ys.contains c)

/-- Body of the per-(user, article) iteration of matcher.py main: compute
the category intersection; on empty overlap upsert an empty match with no
score, otherwise compute the relevance score (only when the user has a
description and the article a summary) and upsert both. The LLM call is
abstracted as its outcome. -/
def matcher_pair_step (llmOutcome : Except Unit ℚ) (tbl : List UserArticle)
    (user : MUser) (article : MArticle) (now freshId : Nat) :
    List UserArticle :=
  let matched := set_inter user.categories article.categories
  if matched = [] then
    insert_user_article tbl user.id article.link_id [] none now freshId
  else
    let rel :=
      if user.custom_description ≠ "" ∧ article.article_summary ≠ "" then
        calculate_relevance llmOutcome user.custom_description
          article.article_summary
      else none
    insert_user_article tbl user.id article.link_id matched rel now freshId

/-- One upsert performed during a Matcher run: the (user, article) key, the
computed match set and relevance, and the run-specific timestamp and fresh
row id. Re-running the Matcher over unchanged subscribers, items and
derivation results replays the same keys, match sets and scores, with
possibly different timestamps and fresh ids. -/
structure MatcherOp where
  user_id : Nat
  article_id : Nat
  matched : List String
  relevance : Option ℚ
  created_at : Nat
  freshId : Nat
deriving DecidableEq, Repr

/-- The (user_id, article_id) key of an op. -/
def MatcherOp.key (op : MatcherOp) : Nat × Nat := (op.user_id, op.article_id)

/-- The run-independent part of an op: key, match set and relevance. -/
def MatcherOp.core (op : MatcherOp) : Nat × Nat × List String × Option ℚ :=
  (op.user_id, op.article_id, op.matched, op.relevance)

/-- A Matcher run as the fold of its upserts over the association table. -/
def applyOps (tbl : List UserArticle) (ops : List MatcherOp) :
    List UserArticle :=
  ops.foldl
    (fun t op =>
      insert_user_article t op.user_id op.article_id op.matched op.relevance
        op.created_at op.freshId)
    tbl

/-- The (user_id, article_id) key of an association row. -/
def rowKey (r : UserArticle) : Nat × Nat := (r.user_id, r.article_id)

end Matcher

namespace Digest

/-- digest.py get_unsent_articles_for_user: the WHERE clause selects the
user's rows with is_sent = 0, matched_categories not NULL and different
from the two-character empty JSON list; the inner JOIN on links keeps only
rows whose article_id is a link id (linkIds, unique since links.id is the
primary key). The LEFT JOINs on contents and analysis only add display
columns, and the ORDER BY only permutes rows, so the selected rows are
modelled as a filter in table order. -/
def get_unsent_articles_for_user (uas : List UserArticle) (linkIds : List Nat)
    (uid : Nat) : List UserArticle :=
  uas.filter (fun ua =>
    ua.user_id == uid && ua.is_sent == false &&
    ua.matched_categories.isSome && !(ua.matched_categories == some "[]") &&
    linkIds.contains ua.article_id)

/-- digest.py mark_articles_as_sent: UPDATE user_articles SET is_sent = 1
WHERE id IN ids (the empty id list early-return coincides with the map
being the identity). -/
def mark_articles_as_sent (uas : List UserArticle) (ids : List Nat) :
    List UserArticle :=
  uas.map (fun r => if ids.contains r.id then { r with is_sent := true } else r)

/-- digest.py mark_empty_categories_as_sent: UPDATE user_articles SET
is_sent = 1 for the user's unsent rows whose matched_categories is NULL or
the empty JSON list. -/
def mark_empty_categories_as_sent (uas : List UserArticle) (uid : Nat) :
    List UserArticle :=
  uas.map (fun r =>
    if r.user_id == uid && r.is_sent == false &&
        (r.matched_categories == none || r.matched_categories == some "[]") then
      { r with is_sent := true }
    else r)

/-- Outcome of one mail.py send call: the message was delivered; required
configuration was missing (the explicit ValueError raised before the try
block); boto authentication failed (caught inside send and only logged);
or the SES send_email call itself raised (caught inside send and only
logged). -/
inductive MailOutcome where
  | delivered
  | configMissing
  | authFailed
  | sendFailed
deriving DecidableEq, Repr

/-- mail.py send, abstracted over the SES interaction: it raises only in
the configMissing case; authentication errors and send_email errors are
caught by the two except clauses inside send, logged, and swallowed, so
the function returns normally although nothing was delivered. -/
def mail_send (outcome : MailOutcome) : Except String Unit :=
  match outcome with
  | MailOutcome.configMissing =>
      Except.error "AWS credentials or FROM_EMAIL are not set in environment variables."
  | MailOutcome.delivered => Except.ok ()
  | MailOutcome.authFailed => Except.ok ()
  | MailOutcome.sendFailed => Except.ok ()

/-- Whether the mail delivery step actually succeeded for an outcome. -/
def mail_delivered (outcome : MailOutcome) : Bool :=
  outcome == MailOutcome.delivered

/-- digest.py send_digest_to_user: render the digest (pure), call
mail.send, and if it returned without raising, mark the included articles
as sent and then the user's empty-match articles as sent, returning True;
if mail.send raised, the except clause logs and returns False with the
table untouched. -/
def send_digest_to_user (outcome : MailOutcome) (uas : List UserArticle)
    (uid : Nat) (articles : List UserArticle) : Bool × List UserArticle :=
  match mail_send outcome with
  | Except.error _ => (false, uas)
  | Except.ok _ =>
      let afterIncluded := mark_articles_as_sent uas (articles.map (fun a => a.id))
      let afterEmpty := mark_empty_categories_as_sent afterIncluded uid
      (true, afterEmpty)

end Digest

namespace Analyze

/-- analyze.py get_contents_to_analyze: contents with a non-NULL, non-empty
article LEFT JOINed to analysis on content_id, keeping rows where a.id IS
NULL, i.e. where no analysis row at all exists for the content. The
anti-join tests row existence, not any specific analysis column. -/
def get_contents_to_analyze (contents : List ContentRow)
    (analysis : List AnalysisRow) : List ContentRow :=
  contents.filter (fun c =>
    !(c.article == none) && !(c.article == some "") &&
    !(analysis.any (fun a => a.content_id == c.id)))

end Analyze

namespace Score

/-- score.py get_unscored_contents: contents with a non-NULL article,
inner JOINed to links (linkIds, unique since links.id is the primary key)
and LEFT JOINed to analysis on content_id (one analysis row per content),
keeping rows where a.id IS NULL or a.scores IS NULL — so a content whose
analysis row exists but lacks scores is still selected. -/
def get_unscored_contents (contents : List ContentRow) (linkIds : List Nat)
    (analysis : List AnalysisRow) : List ContentRow :=
  contents.filter (fun c =>
    !(c.article == none) && linkIds.contains c.link_id &&
    (match analysis.find? (fun a => a.content_id == c.id) with
     | none => true
     | some a => a.scores == none))

end Score

namespace Ingest

/-- A node of a comment reply tree as served by the item endpoint: its id,
its deleted and dead flags, and its kids (the replies). Fetching a node is
modelled as reading it off the tree, i.e. every fetch succeeds. -/
inductive CommentTree where
  | node (id : Nat) (deleted : Bool) (dead : Bool) (kids : List CommentTree)

/-- ingest.py fetch_comments_recursive, returning each kept comment as its
(id, depth) annotation (comment["_depth"] = current_depth) in the order the
code appends them: the guard returns nothing once current_depth exceeds
max_depth; each fetched comment is kept unless flagged deleted or dead,
and its kids are recursed into only while current_depth < max_depth. -/
def fetch_comments_recursive (ts : List CommentTree)
    (current_depth max_depth : Nat) : List (Nat × Nat) :=
  if current_depth > max_depth then []
  else
    match ts with
    | [] => []
    | CommentTree.node i del dd kids :: rest =>
        if !del && !dd then
          (i, current_depth) ::
            ((if current_depth < max_depth then
                fetch_comments_recursive kids (current_depth + 1) max_depth
              else []) ++
              fetch_comments_recursive rest current_depth max_depth)
        else fetch_comments_recursive rest current_depth max_depth
termination_by sizeOf ts

/-- Depth-first flattening of a comment forest rooted at depth d, keeping
exactly the nodes that are not deleted and not dead and whose ancestors
within the forest are all not deleted and not dead (a deleted or dead node
hides its whole subtree), each annotated with its depth. This is the
unbounded-depth reading of the fetch loop, defined without any depth
limit so the bounded fetch can be compared against it. -/
def alive_comments : List CommentTree → Nat → List (Nat × Nat)
  | [], _ => []
  | CommentTree.node i del dd kids :: rest, d =>
    if !del && !dd then
      (i, d) :: (alive_comments kids (d + 1) ++ alive_comments rest d)
    else alive_comments rest d
termination_by ts _ => sizeOf ts

/-- Depth-first flattening of a comment forest rooted at depth d listing
every node with its id, depth, deleted flag and dead flag, regardless of
the flags of its ancestors. -/
def all_comments : List CommentTree → Nat → List (Nat × Nat × Bool × Bool)
  | [], _ => []
  | CommentTree.node i del dd kids :: rest, d =>
    (i, d, del, dd) :: (all_comments kids (d + 1) ++ all_comments rest d)
termination_by ts _ => sizeOf ts

/-- Metadata of an item returned by the HN item endpoint, as read by
ingest.py process_story (absent JSON fields are None). -/
structure HNItem where
  type : Option String
  title : Option String
  url : Option String
  score : Option Nat
  time : Option Nat
  author : Option String
  descendants : Option Nat
  kids : List Nat
deriving DecidableEq, Repr

/-- The dict built and returned by a successful ingest.py process_story. -/
structure StoryResult where
  hn_id : Nat
  title : Option String
  url : Option String
  score : Option Nat
  time : Option Nat
  author : Option String
  descendants : Nat
  hnlink : String
  comments_text : String
deriving DecidableEq, Repr

/-- ingest.py process_story: fetched is the outcome of fetch_item (None on
a failed fetch); comments_text abstracts the recursive comment fetch and
format_comments_as_text applied to the story's kids. The function returns
None when the fetch failed or when the item's type field is not the string
story, and otherwise builds the story dict. -/
def process_story (fetched : Option HNItem) (hn_id : Nat)
    (comments_text : String) : Option StoryResult :=
  match fetched with
  | none => none
  | some story =>
    if !(story.type == some "story") then none
    else
      some { hn_id := hn_id, title := story.title, url := story.url,
             score := story.score, time := story.time, author := story.author,
             descendants := story.descendants.getD 0,
             hnlink := "https://news.ycombinator.com/item?id=" ++ toString hn_id,
             comments_text := comments_text }

/-- Row of the links table as inserted by ingest.py. -/
structure LinkRow where
  id : Nat
  hn_id : Nat
  title : Option String
  url : Option String
  score : Option Nat
  time : Option Nat
  author : Option String
  descendants : Nat
  hnlink : String
deriving DecidableEq, Repr

/-- The links and contents tables touched by the ingest stage. -/
structure IngestDB where
  links : List LinkRow
  contents : List ContentRow
deriving DecidableEq, Repr

/-- ingest.py insert_story_with_content: skip (returning False) if a link
with the story's hn_id already exists, else insert the link row and its
contents row (article NULL, comments set) and return True. freshLinkId
models last_insert_rowid() and freshContentId the contents autoincrement. -/
def insert_story_with_content (db : IngestDB) (story : StoryResult)
    (freshLinkId freshContentId : Nat) : Bool × IngestDB :=
  if db.links.any (fun l => l.hn_id == story.hn_id) then (false, db)
  else
    (true,
     { links := db.links ++
         [{ id := freshLinkId, hn_id := story.hn_id, title := story.title,
            url := story.url, score := story.score, time := story.time,
            author := story.author, descendants := story.descendants,
            hnlink := story.hnlink }],
       contents := db.contents ++
         [{ id := freshContentId, link_id := freshLinkId, article := none,
            comments := some story.comments_text }] })

/-- Per-story counters of the ingest main loop. -/
structure IngestCounts where
  inserted : Nat
  skipped : Nat
  failed : Nat
deriving DecidableEq, Repr

/-- Body of the per-story iteration of ingest.py main: if a link with this
hn_id already exists the story is skipped before fetching; otherwise the
story is processed, a None result is counted as failed with no insert, and
a non-None result is inserted (counted skipped in the defensive re-check
branch). -/
def ingest_story_step (db : IngestDB) (counts : IngestCounts) (hn_id : Nat)
    (fetched : Option HNItem) (comments_text : String)
    (freshLinkId freshContentId : Nat) : IngestDB × IngestCounts :=
  if db.links.any (fun l => l.hn_id == hn_id) then
    (db, { counts with skipped := counts.skipped + 1 })
  else
    match process_story fetched hn_id comments_text with
    | none => (db, { counts with failed := counts.failed + 1 })
    | some story =>
      let res := insert_story_with_content db story freshLinkId freshContentId
      if res.1 then (res.2, { counts with inserted := counts.inserted + 1 })
      else (res.2, { counts with skipped := counts.skipped + 1 })

end Ingest

/-! Concrete rows and trees used by the counterexamples and witnesses. -/

/-- An unsent association with a non-empty match set, used to exercise the
digest dispatcher. -/
def exMatchedRow : UserArticle :=
  { id := 10, user_id := 1, article_id := 7,
    matched_categories := some (jsonDumpsList ["programming-languages"]),
    relevance_score := some 4, created_at := 100,
    is_read := false, is_sent := false }

/-- A content row with a non-empty article and no summary committed. -/
def exContent : ContentRow :=
  { id := 1, link_id := 1, article := some "text", comments := some "" }

/-- An analysis row holding only scores, as created when the scoring task
commits before the summarization task. -/
def exScoresOnlyAnalysis : AnalysisRow :=
  { id := 1, content_id := 1, article_summary := none,
    comments_summary := none, categories := none,
    scores := some [("controversial", 1), ("trustworthy", 1), ("sentiment", 1)] }

/-- An analysis row holding only summaries and categories, as created when
the summarization task commits before the scoring task. -/
def exSummaryOnlyAnalysis : AnalysisRow :=
  { id := 2, content_id := 1, article_summary := some "a summary",
    comments_summary := some "a comments summary",
    categories := some "programming-languages", scores := none }

/-- A reply tree of depth 2 whose depth-1 node is deleted while its
depth-2 child is alive. -/
def exTree : Ingest.CommentTree :=
  Ingest.CommentTree.node 1 false false
    [Ingest.CommentTree.node 2 true false
      [Ingest.CommentTree.node 3 false false []]]

/-- A non-story item (a job posting) as returned by the item endpoint. -/
def exJobItem : Ingest.HNItem :=
  { type := some "job", title := some "Hiring", url := none, score := some 1,
    time := some 0, author := some "someone", descendants := none, kids := [] }

/-! Helper lemmas shared by the claim theorems. -/

/-- Every row of save_scores output for the saved content_id carries the
serialized scores dict. -/
theorem save_scores_row_scores {analysis : List AnalysisRow} {cid : Nat}
    {s : Score.ArticleScores} {conf : Option ℚ} {fid : Nat} {row : AnalysisRow}
    (hrow : row ∈ Score.save_scores analysis cid s conf fid)
    (hcid : row.content_id = cid) :
    row.scores = some (Score.scoresDict s conf) := by
  unfold Score.save_scores at hrow
  split at hrow
  case isTrue h =>
    rcases List.mem_map.mp hrow with ⟨o, ho, heq⟩
    by_cases hc : o.content_id = cid
    · rw [if_pos (by simpa using hc)] at heq
      rw [← heq]
    · rw [if_neg (by simpa using hc)] at heq
      exact absurd (heq ▸ hcid) hc
  case isFalse h =>
    rcases List.mem_append.mp hrow with h1 | h2
    · exact absurd (List.any_eq_true.mpr ⟨row, h1, by simpa using hcid⟩) h
    · rw [List.mem_singleton.mp h2]

/-- C1: the claim fails on the code: the Enrichment Engine's save_scores
performs no clamping, so an out-of-range derivation output 6.7 for the
bounded 0-5 controversial field is persisted as 6.7, not as 5.0. -/
theorem C1_counterexample :
    (Score.save_scores [] 1
        { controversial := 67/10, trustworthy := 3, sentiment := 3 } none 1).map
      (fun r => r.scores) =
      [some [("controversial", (67 : ℚ)/10), ("trustworthy", 3), ("sentiment", 3)]] ∧
    ¬ ((67 : ℚ)/10 ≤ 5) ∧ (67 : ℚ)/10 ≠ 5 := by
  refine ⟨by norm_num [Score.save_scores, Score.scoresDict], by norm_num, by norm_num⟩

/-- C1 amended: only the Matcher's relevance score is clamped to the 0-5
range before persistence (calculate_relevance applies max 0 (min 5 r) to
any derivation output); the Enrichment Engine's save_scores persists the
derivation outputs for controversial, trustworthy, sentiment and
confidence verbatim, without clamping. -/
theorem C1_amended (llmOutcome : Except Unit ℚ) (desc summary : String) (r : ℚ)
    (analysis : List AnalysisRow) (cid fid : Nat) (s : Score.ArticleScores)
    (conf : Option ℚ) (row : AnalysisRow)
    (hrel : Matcher.calculate_relevance llmOutcome desc summary = some r)
    (hrow : row ∈ Score.save_scores analysis cid s conf fid)
    (hcid : row.content_id = cid) :
    (0 ≤ r ∧ r ≤ 5) ∧
    row.scores = some (Score.scoresDict s conf) ∧
    (Score.scoresDict s conf).lookup "controversial" = some s.controversial ∧
    (Score.scoresDict s conf).lookup "trustworthy" = some s.trustworthy ∧
    (Score.scoresDict s conf).lookup "sentiment" = some s.sentiment ∧
    ∀ c, conf = some c →
      (Score.scoresDict s conf).lookup "confidence" = some c := by
  refine ⟨?_, save_scores_row_scores hrow hcid, ?_, ?_, ?_, ?_⟩
  · unfold Matcher.calculate_relevance at hrel
    split at hrel
    · exact absurd hrel (by simp)
    · cases llmOutcome with
      | ok v =>
        simp only [Option.some.injEq] at hrel
        subst hrel
        exact ⟨le_max_left 0 _, max_le (by norm_num) (min_le_left 5 v)⟩
      | error e => exact absurd hrel (by simp)
  · cases conf <;> simp [Score.scoresDict, List.lookup]
  · cases conf <;> simp [Score.scoresDict, List.lookup]
  · cases conf <;> simp [Score.scoresDict, List.lookup]
  · intro c hc
    subst hc
    simp [Score.scoresDict, List.lookup]

/-- C1 amended, witnessed at a concrete input: a relevance output of 7 is
clamped into range, while save_scores stores the raw blob for a score
output of 6.7. -/
theorem C1_witness :
    ((0 : ℚ) ≤ 5 ∧ (5 : ℚ) ≤ 5) ∧
    ({ id := 1, content_id := 1, article_summary := none,
       comments_summary := none, categories := none,
       scores := some (Score.scoresDict
         { controversial := 67/10, trustworthy := 3, sentiment := 3 } none) } :
        AnalysisRow).scores =
      some (Score.scoresDict
        { controversial := 67/10, trustworthy := 3, sentiment := 3 } none) ∧
    (Score.scoresDict
        { controversial := 67/10, trustworthy := 3, sentiment := 3 } none).lookup
      "controversial" = some (67/10 : ℚ) ∧
    (Score.scoresDict
        { controversial := 67/10, trustworthy := 3, sentiment := 3 } none).lookup
      "trustworthy" = some (3 : ℚ) ∧
    (Score.scoresDict
        { controversial := 67/10, trustworthy := 3, sentiment := 3 } none).lookup
      "sentiment" = some (3 : ℚ) ∧
    ∀ c, (none : Option ℚ) = some c →
      (Score.scoresDict
          { controversial := 67/10, trustworthy := 3, sentiment := 3 } none).lookup
        "confidence" = some c :=
  C1_amended (Except.ok 7) "ai tools" "a summary" 5 [] 1 1
    { controversial := 67/10, trustworthy := 3, sentiment := 3 } none
    { id := 1, content_id := 1, article_summary := none,
      comments_summary := none, categories := none,
      scores := some (Score.scoresDict
        { controversial := 67/10, trustworthy := 3, sentiment := 3 } none) }
    (by unfold Matcher.calculate_relevance
        rw [if_neg (by simp)]
        norm_num)
    (by simp [Score.save_scores, Score.scoresDict]) rfl

/-- C8: when the article summary has not been committed (the left-joined
article_summary is NULL, whether because the analysis row is absent or its
column is), compute_confidence returns None, and the scores blob that
save_scores persists with that None confidence has exactly the three
article-score keys and no confidence key. -/
theorem C8_confidence_skipped (llmOutcome : Except Unit ℚ) (article : String)
    (analysis : List AnalysisRow) (cid fid : Nat) (s : Score.ArticleScores)
    (row : AnalysisRow)
    (hrow : row ∈ Score.save_scores analysis cid s
      (Score.compute_confidence llmOutcome article none) fid)
    (hcid : row.content_id = cid) :
    Score.compute_confidence llmOutcome article none = none ∧
    row.scores = some (Score.scoresDict s none) ∧
    (Score.scoresDict s none).map Prod.fst =
      ["controversial", "trustworthy", "sentiment"] ∧
    (Score.scoresDict s none).lookup "confidence" = none := by
  have hnone : Score.compute_confidence llmOutcome article none = none := by
    unfold Score.compute_confidence
    rw [if_pos (Or.inr (Or.inl rfl))]
  rw [hnone] at hrow
  exact ⟨hnone, save_scores_row_scores hrow hcid,
    by simp [Score.scoresDict], by simp [Score.scoresDict, List.lookup]⟩

/-- C8 witnessed at a concrete input: an item whose summarization has not
committed is saved with a three-key scores blob and no confidence entry. -/
theorem C8_witness :
    Score.compute_confidence (Except.ok 4) "text" none = none ∧
    ({ id := 1, content_id := 1, article_summary := none,
       comments_summary := none, categories := none,
       scores := some (Score.scoresDict
         { controversial := 1, trustworthy := 2, sentiment := 3 } none) } :
        AnalysisRow).scores =
      some (Score.scoresDict
        { controversial := 1, trustworthy := 2, sentiment := 3 } none) ∧
    (Score.scoresDict
        { controversial := 1, trustworthy := 2, sentiment := 3 } none).map
      Prod.fst = ["controversial", "trustworthy", "sentiment"] ∧
    (Score.scoresDict
        { controversial := 1, trustworthy := 2, sentiment := 3 } none).lookup
      "confidence" = none :=
  C8_confidence_skipped (Except.ok 4) "text" [] 1 1
    { controversial := 1, trustworthy := 2, sentiment := 3 }
    { id := 1, content_id := 1, article_summary := none,
      comments_summary := none, categories := none,
      scores := some (Score.scoresDict
        { controversial := 1, trustworthy := 2, sentiment := 3 } none) }
    (by simp [Score.save_scores, Score.scoresDict, Score.compute_confidence,
              Score.truncate_text])
    rfl

/-- C2 at its failing input: an unsent matched association, with the SES
send_email call failing. mail.send swallows the exception, so
send_digest_to_user reports success and marks the association as sent,
although nothing was delivered: database state is mutated on a delivery
failure, contradicting the claim (only the missing-configuration
ValueError, raised before the try block, leaves the state untouched). -/
theorem C2_mutation_on_failed_delivery :
    Digest.mail_delivered Digest.MailOutcome.sendFailed = false ∧
    Digest.get_unsent_articles_for_user [exMatchedRow] [7] 1 = [exMatchedRow] ∧
    (Digest.send_digest_to_user Digest.MailOutcome.sendFailed [exMatchedRow] 1
        (Digest.get_unsent_articles_for_user [exMatchedRow] [7] 1)).1 = true ∧
    (Digest.send_digest_to_user Digest.MailOutcome.sendFailed [exMatchedRow] 1
        (Digest.get_unsent_articles_for_user [exMatchedRow] [7] 1)).2 =
      [{ exMatchedRow with is_sent := true }] ∧
    (Digest.send_digest_to_user Digest.MailOutcome.configMissing [exMatchedRow] 1
        (Digest.get_unsent_articles_for_user [exMatchedRow] [7] 1)).2 =
      [exMatchedRow] := by
  refine ⟨rfl, ?_, ?_, ?_, ?_⟩ <;> decide

/-- C3: the claim fails on the code: when the scoring task has committed
first, the analysis row exists with scores but without summaries or
categories, and get_contents_to_analyze, whose anti-join tests a.id IS
NULL (row existence), does not select the content row although its
summaries are still absent. -/
theorem C3_counterexample :
    exScoresOnlyAnalysis.article_summary = none ∧
    exScoresOnlyAnalysis.categories = none ∧
    exScoresOnlyAnalysis.content_id = exContent.id ∧
    exContent.article = some "text" ∧
    Analyze.get_contents_to_analyze [exContent] [exScoresOnlyAnalysis] = [] := by
  refine ⟨rfl, rfl, rfl, rfl, ?_⟩
  decide

/-- C3 amended: the scoring task's work discovery checks its own output
column — a content row is selected iff its article is non-NULL, its link
exists, and either no analysis row exists or that row's scores column is
NULL — but the summarization/categorization task's work discovery checks
mere row existence: a content row is selected iff its article is non-empty
and no analysis row exists at all, so an analysis row committed first by
the scoring task hides the content from summarization even though its
summaries and categories are still absent. -/
theorem C3_amended (contents : List ContentRow) (analysis : List AnalysisRow)
    (linkIds : List Nat) (c : ContentRow)
    (huniq : (analysis.map (fun a => a.content_id)).Nodup) :
    (c ∈ Analyze.get_contents_to_analyze contents analysis ↔
      c ∈ contents ∧ c.article ≠ none ∧ c.article ≠ some "" ∧
        ∀ a ∈ analysis, a.content_id ≠ c.id) ∧
    (c ∈ Score.get_unscored_contents contents linkIds analysis ↔
      c ∈ contents ∧ c.article ≠ none ∧ c.link_id ∈ linkIds ∧
        ∀ a ∈ analysis, a.content_id = c.id → a.scores = none) := by
  constructor
  · rw [Analyze.get_contents_to_analyze, List.mem_filter]
    simp only [Bool.and_eq_true, Bool.not_eq_true', beq_eq_false_iff_ne,
      List.any_eq_false, beq_iff_eq, and_assoc]
  · rw [Score.get_unscored_contents, List.mem_filter]
    simp only [Bool.and_eq_true, Bool.not_eq_true', beq_eq_false_iff_ne,
      List.elem_iff, and_assoc]
    refine and_congr_right fun hmem => and_congr_right fun ha =>
      and_congr_right fun hl => ?_
    cases hfind : analysis.find? (fun a => a.content_id == c.id) with
    | none =>
      simp only [true_iff]
      intro a hamem haid
      have := List.find?_eq_none.mp hfind a hamem
      simp [haid] at this
    | some a =>
      have hamem := List.mem_of_find?_eq_some hfind
      have haid : a.content_id = c.id := by
        have := List.find?_some hfind
        simpa using this
      simp only [beq_iff_eq]
      constructor
      · intro hs b hbmem hbid
        have hb : b = a :=
          List.inj_on_of_nodup_map huniq hbmem hamem (by rw [hbid, haid])
        rw [hb, hs]
      · intro h
        exact h a hamem haid

/-- C3 amended, witnessed at a concrete input: the scores-first analysis
row hides its content from the summarization query, while a summaries-only
analysis row leaves its content selected by the scoring query. -/
theorem C3_witness :
    (exContent ∈ Analyze.get_contents_to_analyze [exContent] [exScoresOnlyAnalysis] ↔
      exContent ∈ [exContent] ∧ exContent.article ≠ none ∧
        exContent.article ≠ some "" ∧
        ∀ a ∈ [exScoresOnlyAnalysis], a.content_id ≠ exContent.id) ∧
    (exContent ∈ Score.get_unscored_contents [exContent] [1] [exScoresOnlyAnalysis] ↔
      exContent ∈ [exContent] ∧ exContent.article ≠ none ∧
        exContent.link_id ∈ [1] ∧
        ∀ a ∈ [exScoresOnlyAnalysis], a.content_id = exContent.id →
          a.scores = none) :=
  C3_amended [exContent] [exScoresOnlyAnalysis] [1] exContent (by decide)

/-- Every row of the upsert output at the upserted key carries the
serialized match set and relevance score of the upsert. -/
theorem insert_sets {tbl : List UserArticle} {uid aid : Nat} {m : List String}
    {rel : Option ℚ} {now fid : Nat} {r : UserArticle}
    (hr : r ∈ Matcher.insert_user_article tbl uid aid m rel now fid)
    (hu : r.user_id = uid) (ha : r.article_id = aid) :
    r.matched_categories = some (jsonDumpsList m) ∧ r.relevance_score = rel := by
  unfold Matcher.insert_user_article at hr
  split at hr
  case isTrue h =>
    rcases List.mem_map.mp hr with ⟨o, ho, heq⟩
    by_cases hc : (o.user_id == uid && o.article_id == aid) = true
    · rw [if_pos hc] at heq
      rw [← heq]
      exact ⟨rfl, rfl⟩
    · rw [if_neg hc] at heq
      rw [← heq] at hu ha
      exact absurd (by simp [hu, ha]) hc
  case isFalse h =>
    rcases List.mem_append.mp hr with h1 | h2
    · exact absurd (List.any_eq_true.mpr ⟨r, h1, by simp [hu, ha]⟩) h
    · rw [List.mem_singleton.mp h2]
      exact ⟨rfl, rfl⟩

/-- Rows of the upsert output whose key differs from the upserted key come
unchanged from the input table. -/
theorem insert_frame {tbl : List UserArticle} {uid aid : Nat}
    {m : List String} {rel : Option ℚ} {now fid : Nat} {r : UserArticle}
    (hr : r ∈ Matcher.insert_user_article tbl uid aid m rel now fid)
    (hne : ¬(r.user_id = uid ∧ r.article_id = aid)) : r ∈ tbl := by
  unfold Matcher.insert_user_article at hr
  split at hr
  case isTrue h =>
    rcases List.mem_map.mp hr with ⟨o, ho, heq⟩
    by_cases hc : (o.user_id == uid && o.article_id == aid) = true
    · rw [if_pos hc] at heq
      rw [← heq] at hne
      simp only [Bool.and_eq_true, beq_iff_eq] at hc
      exact absurd hc hne
    · rw [if_neg hc] at heq
      rw [← heq]
      exact ho
  case isFalse h =>
    rcases List.mem_append.mp hr with h1 | h2
    · exact h1
    · rw [List.mem_singleton.mp h2] at hne
      exact absurd ⟨rfl, rfl⟩ hne

/-- After an upsert, the upserted key is present. -/
theorem insert_present (tbl : List UserArticle) (uid aid : Nat)
    (m : List String) (rel : Option ℚ) (now fid : Nat) :
    ∃ r ∈ Matcher.insert_user_article tbl uid aid m rel now fid,
      r.user_id = uid ∧ r.article_id = aid := by
  unfold Matcher.insert_user_article
  split
  case isTrue h =>
    rcases List.any_eq_true.mp h with ⟨o, ho, hcond⟩
    simp only [Bool.and_eq_true, beq_iff_eq] at hcond
    refine ⟨{ o with matched_categories := some (jsonDumpsList m), relevance_score := rel },
      List.mem_map.mpr ⟨o, ho, by rw [if_pos (by simp [hcond.1, hcond.2])]⟩,
      hcond.1, hcond.2⟩
  case isFalse h =>
    exact ⟨_, List.mem_append_right _ (List.mem_singleton_self _), rfl, rfl⟩

/-- An upsert preserves the presence of every key. -/
theorem insert_keeps {tbl : List UserArticle} {uid aid : Nat}
    {m : List String} {rel : Option ℚ} {now fid : Nat} {r : UserArticle}
    (hr : r ∈ tbl) :
    ∃ r' ∈ Matcher.insert_user_article tbl uid aid m rel now fid,
      r'.user_id = r.user_id ∧ r'.article_id = r.article_id := by
  unfold Matcher.insert_user_article
  split
  case isTrue h =>
    by_cases hc : (r.user_id == uid && r.article_id == aid) = true
    · refine ⟨{ r with matched_categories := some (jsonDumpsList m), relevance_score := rel },
        List.mem_map.mpr ⟨r, hr, by rw [if_pos hc]⟩, rfl, rfl⟩
    · exact ⟨r, List.mem_map.mpr ⟨r, hr, by rw [if_neg hc]⟩, rfl, rfl⟩
  case isFalse h =>
    exact ⟨r, List.mem_append_left _ hr, rfl, rfl⟩

/-- An upsert whose match set and score the table already holds at a
present key is the identity on the table. -/
theorem insert_noop {tbl : List UserArticle} {uid aid : Nat}
    {m : List String} {rel : Option ℚ} {now fid : Nat}
    (hpres : ∃ r ∈ tbl, r.user_id = uid ∧ r.article_id = aid)
    (hvals : ∀ r ∈ tbl, r.user_id = uid → r.article_id = aid →
      r.matched_categories = some (jsonDumpsList m) ∧ r.relevance_score = rel) :
    Matcher.insert_user_article tbl uid aid m rel now fid = tbl := by
  rcases hpres with ⟨w, hw, hw1, hw2⟩
  unfold Matcher.insert_user_article
  rw [if_pos (List.any_eq_true.mpr ⟨w, hw, by simp [hw1, hw2]⟩)]
  have hid : ∀ r ∈ tbl,
      (if r.user_id == uid && r.article_id == aid then
        { r with matched_categories := some (jsonDumpsList m),
                 relevance_score := rel }
      else r) = r := by
    intro r hr
    split
    case isTrue hc =>
      simp only [Bool.and_eq_true, beq_iff_eq] at hc
      obtain ⟨h1, h2⟩ := hvals r hr hc.1 hc.2
      cases r
      simp_all
    case isFalse hc => rfl
  calc tbl.map _ = tbl.map id := List.map_congr_left hid
    _ = tbl := List.map_id tbl

/-- An upsert preserves uniqueness of the (user, article) keys. -/
theorem insert_nodup {tbl : List UserArticle} {uid aid : Nat}
    {m : List String} {rel : Option ℚ} {now fid : Nat}
    (h : (tbl.map Matcher.rowKey).Nodup) :
    ((Matcher.insert_user_article tbl uid aid m rel now fid).map
      Matcher.rowKey).Nodup := by
  unfold Matcher.insert_user_article
  split
  case isTrue hc =>
    rw [List.map_map]
    have : ∀ r ∈ tbl, (Matcher.rowKey ∘ fun r =>
        if r.user_id == uid && r.article_id == aid then
          { r with matched_categories := some (jsonDumpsList m),
                   relevance_score := rel }
        else r) r = Matcher.rowKey r := by
      intro r hr
      simp only [Function.comp_apply]
      split <;> rfl
    rw [List.map_congr_left this]
    exact h
  case isFalse hc =>
    rw [List.map_append]
    rw [List.nodup_append]
    refine ⟨h, List.nodup_singleton _, ?_⟩
    intro k hk hk2
    simp only [List.map_cons, List.map_nil, List.mem_singleton] at hk2
    subst hk2
    rcases List.mem_map.mp hk with ⟨r, hrmem, hrkey⟩
    have : ¬ (r.user_id == uid && r.article_id == aid) = true := by
      intro hb
      exact absurd (List.any_eq_true.mpr ⟨r, hrmem, hb⟩) hc
    apply this
    have h1 : r.user_id = uid := congrArg Prod.fst hrkey
    have h2 : r.article_id = aid := congrArg Prod.snd hrkey
    simp [h1, h2]

/-- Unfolding a Matcher run one upsert at a time. -/
theorem applyOps_cons (tbl : List UserArticle) (op : Matcher.MatcherOp)
    (ops : List Matcher.MatcherOp) :
    Matcher.applyOps tbl (op :: ops) =
      Matcher.applyOps
        (Matcher.insert_user_article tbl op.user_id op.article_id op.matched
          op.relevance op.created_at op.freshId) ops := rfl

/-- A key whose match set and score the table already holds keeps them
through further upserts at other keys. -/
theorem applyOps_preserves_done (ops : List Matcher.MatcherOp) :
    ∀ (t : List UserArticle) (op : Matcher.MatcherOp),
      (∀ op' ∈ ops, Matcher.MatcherOp.key op' ≠ Matcher.MatcherOp.key op) →
      (∃ r ∈ t, r.user_id = op.user_id ∧ r.article_id = op.article_id) →
      (∀ r ∈ t, r.user_id = op.user_id → r.article_id = op.article_id →
        r.matched_categories = some (jsonDumpsList op.matched) ∧
        r.relevance_score = op.relevance) →
      ((∃ r ∈ Matcher.applyOps t ops,
          r.user_id = op.user_id ∧ r.article_id = op.article_id) ∧
        (∀ r ∈ Matcher.applyOps t ops,
          r.user_id = op.user_id → r.article_id = op.article_id →
          r.matched_categories = some (jsonDumpsList op.matched) ∧
          r.relevance_score = op.relevance)) := by
  induction ops with
  | nil => exact fun t op _ hpres hvals => ⟨hpres, hvals⟩
  | cons op' rest ih =>
    intro t op hne hpres hvals
    rw [applyOps_cons]
    apply ih
    · exact fun o ho => hne o (List.mem_cons_of_mem _ ho)
    · rcases hpres with ⟨w, hw, hw1, hw2⟩
      rcases @insert_keeps t op'.user_id op'.article_id op'.matched
          op'.relevance op'.created_at op'.freshId w hw with ⟨w', hw', k1, k2⟩
      exact ⟨w', hw', k1.trans hw1, k2.trans hw2⟩
    · intro r hrmem h1 h2
      have hne' : ¬(r.user_id = op'.user_id ∧ r.article_id = op'.article_id) := by
        rintro ⟨e1, e2⟩
        exact hne op' (List.mem_cons_self _ _)
          (by unfold Matcher.MatcherOp.key; rw [← e1, ← e2, h1, h2])
      exact hvals r (insert_frame hrmem hne') h1 h2

/-- After a Matcher run with pairwise-distinct keys, every upsert of the
run has left its key present and carrying exactly its match set and
relevance score. -/
theorem applyOps_done (ops : List Matcher.MatcherOp) :
    ∀ (t : List UserArticle) (op : Matcher.MatcherOp), op ∈ ops →
      (ops.map Matcher.MatcherOp.key).Nodup →
      ((∃ r ∈ Matcher.applyOps t ops,
          r.user_id = op.user_id ∧ r.article_id = op.article_id) ∧
        (∀ r ∈ Matcher.applyOps t ops,
          r.user_id = op.user_id → r.article_id = op.article_id →
          r.matched_categories = some (jsonDumpsList op.matched) ∧
          r.relevance_score = op.relevance)) := by
  induction ops with
  | nil => intro t op hop _; exact absurd hop (List.not_mem_nil op)
  | cons op' rest ih =>
    intro t op hop hnodup
    rw [applyOps_cons]
    rcases List.mem_cons.mp hop with heq | hmem
    · subst heq
      apply applyOps_preserves_done
      · intro o ho hkeq
        have hmem' : Matcher.MatcherOp.key op ∈ rest.map Matcher.MatcherOp.key :=
          hkeq ▸ List.mem_map_of_mem _ ho
        rw [List.map_cons, List.nodup_cons] at hnodup
        exact hnodup.1 hmem'
      · exact insert_present t op.user_id op.article_id op.matched
          op.relevance op.created_at op.freshId
      · exact fun r hr h1 h2 => insert_sets hr h1 h2
    · refine ih _ op hmem ?_
      rw [List.map_cons, List.nodup_cons] at hnodup
      exact hnodup.2

/-- Replaying upserts whose keys the table already holds with the same
match sets and scores leaves the table unchanged. -/
theorem applyOps_noop (ops : List Matcher.MatcherOp) :
    ∀ t : List UserArticle,
      (∀ op ∈ ops,
        (∃ r ∈ t, r.user_id = op.user_id ∧ r.article_id = op.article_id) ∧
        (∀ r ∈ t, r.user_id = op.user_id → r.article_id = op.article_id →
          r.matched_categories = some (jsonDumpsList op.matched) ∧
          r.relevance_score = op.relevance)) →
      Matcher.applyOps t ops = t := by
  induction ops with
  | nil => intro t _; rfl
  | cons op rest ih =>
    intro t h
    rw [applyOps_cons]
    have h0 := h op (List.mem_cons_self _ _)
    rw [insert_noop h0.1 h0.2]
    exact ih t (fun o ho => h o (List.mem_cons_of_mem _ ho))

/-- A Matcher run preserves uniqueness of the (user, article) keys. -/
theorem applyOps_nodup (ops : List Matcher.MatcherOp) :
    ∀ t : List UserArticle, (t.map Matcher.rowKey).Nodup →
      ((Matcher.applyOps t ops).map Matcher.rowKey).Nodup := by
  induction ops with
  | nil => exact fun t h => h
  | cons op rest ih =>
    intro t h
    rw [applyOps_cons]
    exact ih _ (insert_nodup h)

/-- C4: a second Matcher run over unchanged subscribers, items and
derivation results (same keys, match sets and relevance scores per upsert,
possibly different timestamps and fresh row ids) leaves the association
table exactly as the first run left it, and the table keeps at most one
row per (subscriber, item) key throughout. -/
theorem C4_matcher_rerun_identical (tbl : List UserArticle)
    (ops1 ops2 : List Matcher.MatcherOp)
    (hcore : ops2.map Matcher.MatcherOp.core = ops1.map Matcher.MatcherOp.core)
    (hkeys : (ops1.map Matcher.MatcherOp.key).Nodup)
    (htbl : (tbl.map Matcher.rowKey).Nodup) :
    Matcher.applyOps (Matcher.applyOps tbl ops1) ops2 =
      Matcher.applyOps tbl ops1 ∧
    ((Matcher.applyOps tbl ops1).map Matcher.rowKey).Nodup := by
  refine ⟨?_, applyOps_nodup ops1 tbl htbl⟩
  apply applyOps_noop
  intro op2 hop2
  have hin : Matcher.MatcherOp.core op2 ∈ ops1.map Matcher.MatcherOp.core := by
    rw [← hcore]
    exact List.mem_map_of_mem _ hop2
  rcases List.mem_map.mp hin with ⟨op1, hop1, hcoreq⟩
  unfold Matcher.MatcherOp.core at hcoreq
  obtain ⟨e1, e2, e3, e4⟩ :
      op1.user_id = op2.user_id ∧ op1.article_id = op2.article_id ∧
      op1.matched = op2.matched ∧ op1.relevance = op2.relevance := by
    simpa using hcoreq
  have hdone := applyOps_done ops1 tbl op1 hop1 hkeys
  rw [e1, e2, e3, e4] at hdone
  exact hdone

/-- C4 witnessed at a concrete input: replaying a one-upsert run with a
different timestamp and fresh id leaves the one-row table unchanged. -/
theorem C4_witness :
    Matcher.applyOps
        (Matcher.applyOps []
          [{ user_id := 1, article_id := 7, matched := ["privacy-encryption"],
             relevance := some 3, created_at := 100, freshId := 1 }])
        [{ user_id := 1, article_id := 7, matched := ["privacy-encryption"],
           relevance := some 3, created_at := 200, freshId := 9 }] =
      Matcher.applyOps []
        [{ user_id := 1, article_id := 7, matched := ["privacy-encryption"],
           relevance := some 3, created_at := 100, freshId := 1 }] ∧
    ((Matcher.applyOps []
        [{ user_id := 1, article_id := 7, matched := ["privacy-encryption"],
           relevance := some 3, created_at := 100, freshId := 1 }]).map
      Matcher.rowKey).Nodup :=
  C4_matcher_rerun_identical []
    [{ user_id := 1, article_id := 7, matched := ["privacy-encryption"],
       relevance := some 3, created_at := 100, freshId := 1 }]
    [{ user_id := 1, article_id := 7, matched := ["privacy-encryption"],
       relevance := some 3, created_at := 200, freshId := 9 }]
    (by decide) (by decide) (by decide)

/-- C9: upserting at an already-present (subscriber, item) key overwrites
only matched_categories and relevance_score: the conflicting row keeps its
id, created_at, is_read and is_sent values, the table gains no row, and
rows at other keys pass through unchanged. -/
theorem C9_upsert_frame (tbl : List UserArticle) (uid aid : Nat)
    (m : List String) (rel : Option ℚ) (now fid : Nat) (r : UserArticle)
    (hr : r ∈ tbl) (hu : r.user_id = uid) (ha : r.article_id = aid) :
    { r with matched_categories := some (jsonDumpsList m), relevance_score := rel } ∈ Matcher.insert_user_article tbl uid aid m rel now fid ∧
    (Matcher.insert_user_article tbl uid aid m rel now fid).length = tbl.length ∧
    ∀ o ∈ tbl, ¬(o.user_id = uid ∧ o.article_id = aid) →
      o ∈ Matcher.insert_user_article tbl uid aid m rel now fid := by
  have hany : (tbl.any fun x => x.user_id == uid && x.article_id == aid) = true :=
    List.any_eq_true.mpr ⟨r, hr, by simp [hu, ha]⟩
  unfold Matcher.insert_user_article
  rw [if_pos hany]
  refine ⟨List.mem_map.mpr ⟨r, hr, by rw [if_pos (by simp [hu, ha])]⟩,
    List.length_map tbl _, ?_⟩
  intro o ho hne
  refine List.mem_map.mpr ⟨o, ho, ?_⟩
  rw [if_neg]
  intro hb
  simp only [Bool.and_eq_true, beq_iff_eq] at hb
  exact hne hb

/-- C9 witnessed at a concrete input: a read, sent association with an old
timestamp keeps id 3, created_at 5, is_read and is_sent through an upsert
that rewrites its match set and score. -/
theorem C9_witness :
    { id := 3, user_id := 1, article_id := 7, matched_categories := some (jsonDumpsList ["operating-systems"]), relevance_score := some 2, created_at := 5, is_read := true, is_sent := true } ∈
      Matcher.insert_user_article
        [{ id := 3, user_id := 1, article_id := 7, matched_categories := some "[]", relevance_score := none, created_at := 5, is_read := true, is_sent := true }]
        1 7 ["operating-systems"] (some 2) 999 1000 ∧
    (Matcher.insert_user_article
        [{ id := 3, user_id := 1, article_id := 7, matched_categories := some "[]", relevance_score := none, created_at := 5, is_read := true, is_sent := true }]
        1 7 ["operating-systems"] (some 2) 999 1000).length =
      ([{ id := 3, user_id := 1, article_id := 7, matched_categories := some "[]", relevance_score := none, created_at := 5, is_read := true, is_sent := true }] : List UserArticle).length ∧
    ∀ o ∈ ([{ id := 3, user_id := 1, article_id := 7, matched_categories := some "[]", relevance_score := none, created_at := 5, is_read := true, is_sent := true }] : List UserArticle),
      ¬(o.user_id = 1 ∧ o.article_id = 7) →
      o ∈ Matcher.insert_user_article
        [{ id := 3, user_id := 1, article_id := 7, matched_categories := some "[]", relevance_score := none, created_at := 5, is_read := true, is_sent := true }]
        1 7 ["operating-systems"] (some 2) 999 1000 :=
  C9_upsert_frame
    [{ id := 3, user_id := 1, article_id := 7, matched_categories := some "[]", relevance_score := none, created_at := 5, is_read := true, is_sent := true }]
    1 7 ["operating-systems"] (some 2) 999 1000
    { id := 3, user_id := 1, article_id := 7, matched_categories := some "[]", relevance_score := none, created_at := 5, is_read := true, is_sent := true }
    (List.mem_singleton_self _) rfl rfl

/-- C6: for a pair the Matcher processes whose category sets are disjoint,
the upsert leaves a row at the pair's key with the serialized empty match
set and a NULL relevance score, and the digest article-selection query
never returns a row at that key, for any querying user and links table. -/
theorem C6_empty_match_suppressed (llmOutcome : Except Unit ℚ)
    (tbl : List UserArticle) (user : Matcher.MUser)
    (article : Matcher.MArticle) (now fid : Nat) (linkIds : List Nat)
    (queryUid : Nat)
    (hdisj : ∀ c ∈ user.categories, c ∉ article.categories) :
    (∃ r ∈ Matcher.matcher_pair_step llmOutcome tbl user article now fid,
      r.user_id = user.id ∧ r.article_id = article.link_id ∧
      r.matched_categories = some "[]" ∧ r.relevance_score = none) ∧
    ∀ r ∈ Digest.get_unsent_articles_for_user
        (Matcher.matcher_pair_step llmOutcome tbl user article now fid)
        linkIds queryUid,
      ¬(r.user_id = user.id ∧ r.article_id = article.link_id) := by
  have hjson : jsonDumpsList [] = "[]" := rfl
  have hempty : Matcher.set_inter user.categories article.categories = [] := by
    unfold Matcher.set_inter
    rw [List.filter_eq_nil_iff]
    intro c hc
    have hnot := hdisj c (List.mem_dedup.mp hc)
    simpa [List.elem_iff] using hnot
  have hstep : Matcher.matcher_pair_step llmOutcome tbl user article now fid =
      Matcher.insert_user_article tbl user.id article.link_id [] none now fid := by
    unfold Matcher.matcher_pair_step
    rw [hempty]
    rfl
  rw [hstep]
  constructor
  · rcases insert_present tbl user.id article.link_id [] none now fid with
      ⟨r, hrmem, h1, h2⟩
    have hset := insert_sets hrmem h1 h2
    exact ⟨r, hrmem, h1, h2, by rw [hset.1, hjson], hset.2⟩
  · rintro r hrmem ⟨h1, h2⟩
    rw [Digest.get_unsent_articles_for_user, List.mem_filter] at hrmem
    obtain ⟨hmem2, hcond⟩ := hrmem
    have hset := insert_sets hmem2 h1 h2
    rw [hjson] at hset
    simp [hset.1] at hcond

/-- C6 witnessed at the spec's example: subscriber categories a, item
categories b and c. -/
theorem C6_witness :
    (∃ r ∈ Matcher.matcher_pair_step (Except.ok 3) []
        { id := 1, categories := ["a"], custom_description := "d" }
        { link_id := 7, analysis_id := 1, categories := ["b", "c"], article_summary := "s" }
        100 1,
      r.user_id = 1 ∧ r.article_id = 7 ∧
      r.matched_categories = some "[]" ∧ r.relevance_score = none) ∧
    ∀ r ∈ Digest.get_unsent_articles_for_user
        (Matcher.matcher_pair_step (Except.ok 3) []
          { id := 1, categories := ["a"], custom_description := "d" }
          { link_id := 7, analysis_id := 1, categories := ["b", "c"], article_summary := "s" }
          100 1)
        [7] 1,
      ¬(r.user_id = 1 ∧ r.article_id = 7) :=
  C6_empty_match_suppressed (Except.ok 3) []
    { id := 1, categories := ["a"], custom_description := "d" }
    { link_id := 7, analysis_id := 1, categories := ["b", "c"], article_summary := "s" }
    100 1 [7] 1 (by decide)

/-- C5: for a subscriber whose table holds exactly three unsent
associations with non-empty match sets and one unsent association with the
empty match set (the three payload article links present, the empty row's
id distinct from the payload ids), the selection query returns exactly the
three non-empty rows, the empty-match row is not in the payload, and one
successful dispatch reports success and leaves all four rows with
is_sent = 1. -/
theorem C5_digest_marks_all_four (uid : Nat) (r1 r2 r3 r4 : UserArticle)
    (linkIds : List Nat) (m1 m2 m3 : String)
    (hu1 : r1.user_id = uid) (hu2 : r2.user_id = uid)
    (hu3 : r3.user_id = uid) (hu4 : r4.user_id = uid)
    (hs1 : r1.is_sent = false) (hs2 : r2.is_sent = false)
    (hs3 : r3.is_sent = false) (hs4 : r4.is_sent = false)
    (hm1 : r1.matched_categories = some m1)
    (hm2 : r2.matched_categories = some m2)
    (hm3 : r3.matched_categories = some m3)
    (hne1 : m1 ≠ "[]") (hne2 : m2 ≠ "[]") (hne3 : m3 ≠ "[]")
    (hm4 : r4.matched_categories = some "[]")
    (hl1 : r1.article_id ∈ linkIds) (hl2 : r2.article_id ∈ linkIds)
    (hl3 : r3.article_id ∈ linkIds)
    (hd1 : r4.id ≠ r1.id) (hd2 : r4.id ≠ r2.id) (hd3 : r4.id ≠ r3.id) :
    Digest.get_unsent_articles_for_user [r1, r2, r3, r4] linkIds uid =
      [r1, r2, r3] ∧
    r4 ∉ Digest.get_unsent_articles_for_user [r1, r2, r3, r4] linkIds uid ∧
    (Digest.send_digest_to_user Digest.MailOutcome.delivered [r1, r2, r3, r4]
        uid (Digest.get_unsent_articles_for_user [r1, r2, r3, r4] linkIds uid)).1 =
      true ∧
    (Digest.send_digest_to_user Digest.MailOutcome.delivered [r1, r2, r3, r4]
        uid (Digest.get_unsent_articles_for_user [r1, r2, r3, r4] linkIds uid)).2 =
      [{ r1 with is_sent := true }, { r2 with is_sent := true }, { r3 with is_sent := true }, { r4 with is_sent := true }] := by
  have hpay : Digest.get_unsent_articles_for_user [r1, r2, r3, r4] linkIds uid =
      [r1, r2, r3] := by
    unfold Digest.get_unsent_articles_for_user
    simp [List.filter_cons, hu1, hu2, hu3, hu4, hs1, hs2, hs3, hs4,
      hm1, hm2, hm3, hm4, hne1, hne2, hne3, List.elem_iff, hl1, hl2, hl3]
  rw [hpay]
  refine ⟨rfl, ?_, ?_, ?_⟩
  · intro hmem
    simp only [List.mem_cons, List.not_mem_nil, or_false] at hmem
    rcases hmem with h | h | h
    · rw [h, hm1] at hm4
      exact hne1 (Option.some_injective _ hm4)
    · rw [h, hm2] at hm4
      exact hne2 (Option.some_injective _ hm4)
    · rw [h, hm3] at hm4
      exact hne3 (Option.some_injective _ hm4)
  · rfl
  · show (Digest.mark_empty_categories_as_sent
        (Digest.mark_articles_as_sent [r1, r2, r3, r4]
          ([r1, r2, r3].map (fun a => a.id))) uid) = _
    unfold Digest.mark_articles_as_sent Digest.mark_empty_categories_as_sent
    simp [hd1, hd2, hd3, hu4, hs4, hm4]

/-- C5 witnessed at a concrete input: three unsent matched rows and one
unsent empty-match row; one delivered dispatch marks all four sent while
the payload holds only the three matched rows. -/
theorem C5_witness :
    Digest.get_unsent_articles_for_user
        [{ id := 1, user_id := 1, article_id := 11, matched_categories := some "[\"a\"]", relevance_score := some 5, created_at := 0, is_read := false, is_sent := false },
         { id := 2, user_id := 1, article_id := 12, matched_categories := some "[\"b\"]", relevance_score := some 4, created_at := 0, is_read := false, is_sent := false },
         { id := 3, user_id := 1, article_id := 13, matched_categories := some "[\"c\"]", relevance_score := some 3, created_at := 0, is_read := false, is_sent := false },
         { id := 4, user_id := 1, article_id := 14, matched_categories := some "[]", relevance_score := none, created_at := 0, is_read := false, is_sent := false }]
        [11, 12, 13, 14] 1 =
      [{ id := 1, user_id := 1, article_id := 11, matched_categories := some "[\"a\"]", relevance_score := some 5, created_at := 0, is_read := false, is_sent := false },
       { id := 2, user_id := 1, article_id := 12, matched_categories := some "[\"b\"]", relevance_score := some 4, created_at := 0, is_read := false, is_sent := false },
       { id := 3, user_id := 1, article_id := 13, matched_categories := some "[\"c\"]", relevance_score := some 3, created_at := 0, is_read := false, is_sent := false }] ∧
    ({ id := 4, user_id := 1, article_id := 14, matched_categories := some "[]", relevance_score := none, created_at := 0, is_read := false, is_sent := false } : UserArticle) ∉
      Digest.get_unsent_articles_for_user
        [{ id := 1, user_id := 1, article_id := 11, matched_categories := some "[\"a\"]", relevance_score := some 5, created_at := 0, is_read := false, is_sent := false },
         { id := 2, user_id := 1, article_id := 12, matched_categories := some "[\"b\"]", relevance_score := some 4, created_at := 0, is_read := false, is_sent := false },
         { id := 3, user_id := 1, article_id := 13, matched_categories := some "[\"c\"]", relevance_score := some 3, created_at := 0, is_read := false, is_sent := false },
         { id := 4, user_id := 1, article_id := 14, matched_categories := some "[]", relevance_score := none, created_at := 0, is_read := false, is_sent := false }]
        [11, 12, 13, 14] 1 ∧
    (Digest.send_digest_to_user Digest.MailOutcome.delivered
        [{ id := 1, user_id := 1, article_id := 11, matched_categories := some "[\"a\"]", relevance_score := some 5, created_at := 0, is_read := false, is_sent := false },
         { id := 2, user_id := 1, article_id := 12, matched_categories := some "[\"b\"]", relevance_score := some 4, created_at := 0, is_read := false, is_sent := false },
         { id := 3, user_id := 1, article_id := 13, matched_categories := some "[\"c\"]", relevance_score := some 3, created_at := 0, is_read := false, is_sent := false },
         { id := 4, user_id := 1, article_id := 14, matched_categories := some "[]", relevance_score := none, created_at := 0, is_read := false, is_sent := false }]
        1 (Digest.get_unsent_articles_for_user
            [{ id := 1, user_id := 1, article_id := 11, matched_categories := some "[\"a\"]", relevance_score := some 5, created_at := 0, is_read := false, is_sent := false },
             { id := 2, user_id := 1, article_id := 12, matched_categories := some "[\"b\"]", relevance_score := some 4, created_at := 0, is_read := false, is_sent := false },
             { id := 3, user_id := 1, article_id := 13, matched_categories := some "[\"c\"]", relevance_score := some 3, created_at := 0, is_read := false, is_sent := false },
             { id := 4, user_id := 1, article_id := 14, matched_categories := some "[]", relevance_score := none, created_at := 0, is_read := false, is_sent := false }]
            [11, 12, 13, 14] 1)).1 = true ∧
    (Digest.send_digest_to_user Digest.MailOutcome.delivered
        [{ id := 1, user_id := 1, article_id := 11, matched_categories := some "[\"a\"]", relevance_score := some 5, created_at := 0, is_read := false, is_sent := false },
         { id := 2, user_id := 1, article_id := 12, matched_categories := some "[\"b\"]", relevance_score := some 4, created_at := 0, is_read := false, is_sent := false },
         { id := 3, user_id := 1, article_id := 13, matched_categories := some "[\"c\"]", relevance_score := some 3, created_at := 0, is_read := false, is_sent := false },
         { id := 4, user_id := 1, article_id := 14, matched_categories := some "[]", relevance_score := none, created_at := 0, is_read := false, is_sent := false }]
        1 (Digest.get_unsent_articles_for_user
            [{ id := 1, user_id := 1, article_id := 11, matched_categories := some "[\"a\"]", relevance_score := some 5, created_at := 0, is_read := false, is_sent := false },
             { id := 2, user_id := 1, article_id := 12, matched_categories := some "[\"b\"]", relevance_score := some 4, created_at := 0, is_read := false, is_sent := false },
             { id := 3, user_id := 1, article_id := 13, matched_categories := some "[\"c\"]", relevance_score := some 3, created_at := 0, is_read := false, is_sent := false },
             { id := 4, user_id := 1, article_id := 14, matched_categories := some "[]", relevance_score := none, created_at := 0, is_read := false, is_sent := false }]
            [11, 12, 13, 14] 1)).2 =
      [{ id := 1, user_id := 1, article_id := 11, matched_categories := some "[\"a\"]", relevance_score := some 5, created_at := 0, is_read := false, is_sent := true },
       { id := 2, user_id := 1, article_id := 12, matched_categories := some "[\"b\"]", relevance_score := some 4, created_at := 0, is_read := false, is_sent := true },
       { id := 3, user_id := 1, article_id := 13, matched_categories := some "[\"c\"]", relevance_score := some 3, created_at := 0, is_read := false, is_sent := true },
       { id := 4, user_id := 1, article_id := 14, matched_categories := some "[]", relevance_score := none, created_at := 0, is_read := false, is_sent := true }] :=
  C5_digest_marks_all_four 1
    { id := 1, user_id := 1, article_id := 11, matched_categories := some "[\"a\"]", relevance_score := some 5, created_at := 0, is_read := false, is_sent := false }
    { id := 2, user_id := 1, article_id := 12, matched_categories := some "[\"b\"]", relevance_score := some 4, created_at := 0, is_read := false, is_sent := false }
    { id := 3, user_id := 1, article_id := 13, matched_categories := some "[\"c\"]", relevance_score := some 3, created_at := 0, is_read := false, is_sent := false }
    { id := 4, user_id := 1, article_id := 14, matched_categories := some "[]", relevance_score := none, created_at := 0, is_read := false, is_sent := false }
    [11, 12, 13, 14] "[\"a\"]" "[\"b\"]" "[\"c\"]"
    rfl rfl rfl rfl rfl rfl rfl rfl rfl rfl rfl
    (by decide) (by decide) (by decide) rfl
    (by decide) (by decide) (by decide)
    (by decide) (by decide) (by decide)

/-- Every comment that the unbounded flattening keeps lies at depth at
least the starting depth. -/
theorem alive_comments_depth_le (ts : List Ingest.CommentTree) (d : Nat)
    (p : Nat × Nat) (hp : p ∈ Ingest.alive_comments ts d) : d ≤ p.2 := by
  induction ts, d using Ingest.alive_comments.induct with
  | case1 d => simp [Ingest.alive_comments] at hp
  | case2 i del dd kids rest d halive ih1 ih2 =>
    rw [Ingest.alive_comments, if_pos halive] at hp
    rcases List.mem_cons.mp hp with h | h
    · simp [h]
    · rcases List.mem_append.mp h with h2 | h2
      · exact Nat.le_of_succ_le (ih1 h2)
      · exact ih2 h2
  | case3 i del dd kids rest d hdead ih =>
    rw [Ingest.alive_comments, if_neg hdead] at hp
    exact ih hp

/-- C7: the claim fails on the code: in a tree whose depth-1 node is
deleted, the non-deleted, non-dead node at depth 2 is absent from the
fetch with max depth 2, because the recursion never descends into an
excluded node; the claim requires every non-deleted, non-dead node at
depths 0 through D to be returned. -/
theorem C7_counterexample :
    (3, 2, false, false) ∈ Ingest.all_comments [exTree] 0 ∧
    Ingest.fetch_comments_recursive [exTree] 0 2 = [(1, 0)] ∧
    (3, 2) ∉ Ingest.fetch_comments_recursive [exTree] 0 2 := by
  refine ⟨?_, ?_, ?_⟩
  · simp [Ingest.all_comments, exTree]
  · simp [Ingest.fetch_comments_recursive, exTree]
  · simp [Ingest.fetch_comments_recursive, exTree]

/-- C7 amended: the recursive fetch starting at depth d with bound D
returns, in depth-first order and annotated with its true depth, exactly
the nodes at depths up to D that are themselves non-deleted and non-dead
and all of whose ancestors are non-deleted and non-dead (a deleted or dead
node hides its whole subtree); equivalently, it equals the unbounded
alive-subtree flattening filtered to depths at most D, so no node deeper
than D ever appears. -/
theorem C7_amended (ts : List Ingest.CommentTree) (d m : Nat) :
    Ingest.fetch_comments_recursive ts d m =
      (Ingest.alive_comments ts d).filter (fun p => decide (p.2 ≤ m)) := by
  induction ts, d, m using Ingest.fetch_comments_recursive.induct with
  | case1 ts d m hgt =>
    rw [Ingest.fetch_comments_recursive.eq_def, if_pos hgt]
    symm
    rw [List.filter_eq_nil_iff]
    intro p hp
    have := alive_comments_depth_le ts d p hp
    simp only [decide_eq_true_eq]
    omega
  | case2 d m hle =>
    simp [Ingest.fetch_comments_recursive, Ingest.alive_comments]
  | case3 d m hle i del dd kids rest halive ih1 ih2 =>
    have hcond : decide ((i, d).2 ≤ m) = true := decide_eq_true (by omega)
    rw [Ingest.fetch_comments_recursive, if_neg hle, if_pos halive]
    conv_rhs => rw [Ingest.alive_comments, if_pos halive]
    rw [List.filter_cons, if_pos hcond, List.filter_append, ← ih1, ← ih2]
    by_cases hlt : d < m
    · rw [if_pos hlt]
    · rw [if_neg hlt]
      have hnil : Ingest.fetch_comments_recursive kids (d + 1) m = [] := by
        rw [Ingest.fetch_comments_recursive.eq_def, if_pos (by omega)]
      rw [hnil]
  | case4 d m hle i del dd kids rest hdead ih =>
    rw [Ingest.fetch_comments_recursive, if_neg hle, if_neg hdead]
    conv_rhs => rw [Ingest.alive_comments, if_neg hdead]
    exact ih

/-- C10: a fetched item whose type field is not the string story is
dropped by process_story (None ), and the per-story step of the ingest
main loop for a new hn_id leaves the links and contents tables untouched
while counting the item as failed, with no other effect. -/
theorem C10_non_story_omitted (db : Ingest.IngestDB)
    (counts : Ingest.IngestCounts) (hn_id : Nat) (item : Ingest.HNItem)
    (comments_text : String) (freshLinkId freshContentId : Nat)
    (hnew : (db.links.any fun l => l.hn_id == hn_id) = false)
    (htype : item.type ≠ some "story") :
    Ingest.process_story (some item) hn_id comments_text = none ∧
    Ingest.ingest_story_step db counts hn_id (some item) comments_text
        freshLinkId freshContentId =
      (db, { counts with failed := counts.failed + 1 }) := by
  have hb : (!(item.type == some "story")) = true := by simp [htype]
  have hp : Ingest.process_story (some item) hn_id comments_text = none := by
    simp [Ingest.process_story, hb]
  refine ⟨hp, ?_⟩
  unfold Ingest.ingest_story_step
  rw [if_neg (by simp [hnew]), hp]

/-- C10 witnessed at a concrete input: a job item against an empty store
is counted failed and inserts nothing. -/
theorem C10_witness :
    Ingest.process_story (some exJobItem) 42 "" = none ∧
    Ingest.ingest_story_step { links := [], contents := [] }
        { inserted := 0, skipped := 0, failed := 0 } 42 (some exJobItem) ""
        1 1 =
      ({ links := [], contents := [] },
       { inserted := 0, skipped := 0, failed := 0 + 1 }) :=
  C10_non_story_omitted { links := [], contents := [] }
    { inserted := 0, skipped := 0, failed := 0 } 42 exJobItem "" 1 1
    (by decide) (by decide)




